import Mathlib

/-!
Shallow embedding of `src/main.ts` of sing-box-windows: the application
bootstrap module. The file is glue code: it constructs the app, starts the
memory-leak monitor, registers a `beforeunload` cleanup handler, installs
dev-only debug hooks, mounts, reads navigation timing, and installs an error
handler. We model the observable behaviour as effect traces: each call the
module makes on a collaborator becomes an element of a trace list, and
control flow (try/catch, `if (isDev)`, sequential `await`s) becomes the
corresponding Lean control flow over those lists.

Machine details abstracted: timestamps from the navigation-timing entry of
the browser are modelled as rationals (the source does only subtraction on them,
so exactness of the representation is immaterial to which metrics are
computed); console message formatting (`toFixed`) is not modelled, only
which metrics are computed and logged.
-/

namespace SingBoxMain

/-- One statement of the `beforeunload` handler in `src/main.ts` lines 36-72,
in source order. `logStart` is the opening `console.log`; `importWS` and
`importMemOpt` are the two awaited dynamic imports; `logWSError` and
`logMemOptError` are the `console.error` calls of the two catch blocks; the
remaining constructors are the collaborator cleanup calls. -/
inductive Step where
  | logStart
  | importWS
  | destroyWSInstance
  | logWSError
  | stopLeakMonitoring
  | wsCleanerCleanupAll
  | storeCleanerCleanupAll
  | importMemOpt
  | memOptCleanup
  | logMemOptError
  | memoryMonitorStop
  | componentPreloaderDestroy
  | eventListenerCleanup
  | codeSplittingCleanup
  | bundlePrintReport
  deriving DecidableEq

/-- Run a sequence of statements under a fault model `f` (`f s = true` means
the call `s` throws / its promise rejects). Returns the trace of calls that
were actually made — a throwing call is still made, so it appears — and
whether the sequence completed without an exception escaping. -/
def runSeq (f : Step → Bool) : List Step → List Step × Bool
  | [] => ([], true)
  | s :: rest =>
    if f s then ([s], false)
    else
      let r := runSeq f rest
      (s :: r.1, r.2)

/-- A `try { body } catch (error) { console.error(...) }` block of the
handler: any exception inside the body is caught, the catch logs it, and
execution continues after the block. -/
def tryBlock (f : Step → Bool) (body : List Step) (catchLog : Step) : List Step :=
  let r := runSeq f body
  if r.2 then r.1 else r.1 ++ [catchLog]

/-- The `beforeunload` handler registered at `src/main.ts:36`, as a trace
function. `isDev` is the build-mode flag captured at line 32; `f` is the
fault model for the collaborator calls; `leakRunning` is the current monitoring state of the leak
detector at the moment the event fires — the body of the handler
never reads it (it calls `stopMonitoring()` unconditionally), which the
definition reflects by not using the argument. The two dynamic-import steps
are wrapped in try/catch in the source; the remaining statements are not, so
an exception there escapes the (async) handler and aborts the rest.
Sequential composition of the trace models the `await` ordering: each
awaited dynamic-import step is complete before the next statement
contributes to the trace. -/
def beforeunloadHandler (isDev : Bool) (f : Step → Bool) (leakRunning : Bool) :
    List Step × Bool :=
  let r0 := runSeq f [Step.logStart]
  if !r0.2 then (r0.1, false) else
  let t1 := tryBlock f [Step.importWS, Step.destroyWSInstance] Step.logWSError
  let r2 := runSeq f
    [Step.stopLeakMonitoring, Step.wsCleanerCleanupAll, Step.storeCleanerCleanupAll]
  if !r2.2 then (r0.1 ++ t1 ++ r2.1, false) else
  let t3 := tryBlock f [Step.importMemOpt, Step.memOptCleanup] Step.logMemOptError
  if isDev then
    let r4 := runSeq f
      [Step.memoryMonitorStop, Step.componentPreloaderDestroy,
       Step.eventListenerCleanup, Step.codeSplittingCleanup, Step.bundlePrintReport]
    (r0.1 ++ t1 ++ r2.1 ++ t3 ++ r4.1, r4.2)
  else
    (r0.1 ++ t1 ++ r2.1 ++ t3, true)

/-- Fault model that makes exactly the four calls inside the two try/catch
blocks (the dynamically-imported steps) throw or not, per the four flags;
every other call succeeds. -/
def wrappedFaults (a b c d : Bool) : Step → Bool
  | Step.importWS => a
  | Step.destroyWSInstance => b
  | Step.importMemOpt => c
  | Step.memOptCleanup => d
  | _ => false

/-- Fault model in which exactly the call `s` throws. -/
def faultOnly (s : Step) : Step → Bool := fun t => decide (t = s)

/-- One top-level statement of the module body of `src/main.ts` (outside the
`beforeunload` handler), in source order. Console output is recorded as
`consoleLog` steps with the logged text; collaborator calls carry their
arguments. `readNavigationTiming` stands for the navigation-timing read and
conditional report (modelled in detail by `performanceReport` below). -/
inductive StartupStep where
  | createAppStep
  | usePiniaStep
  | useRouterStep
  | useI18nStep
  | storeManagerInitialize
  | leakStartMonitoring (intervalMs : Nat)
  | addBeforeunloadListener
  | defineDebugMemory
  | consoleLog (msg : String)
  | memoryMonitorStartMonitoring (intervalMs : Nat)
  | preloadComponentCall (name : String)
  | mountApp
  | readNavigationTiming
  | installErrorHandler
  | setGlobalPerformanceProperty
  | definePerfToolsProperty
  deriving DecidableEq

/-- The top-level execution of `src/main.ts` as a trace of `StartupStep`s,
parametrised by the build-mode flag (`import.meta.env.DEV`, also bound to
`isDev` at line 32). The three dev-only blocks (lines 75-85, 88-105 and
143-168) contribute only when `isDev` is true; `preloadComponent` is called
with the name HomeView and is not awaited, so the steps after it run regardless
of how its promise settles — its `.catch` handler is modelled separately by
`preloadCatch`. -/
def moduleInit (isDev : Bool) : List StartupStep :=
  [StartupStep.createAppStep, StartupStep.usePiniaStep, StartupStep.useRouterStep,
   StartupStep.useI18nStep, StartupStep.storeManagerInitialize,
   StartupStep.leakStartMonitoring (if isDev then 15000 else 30000),
   StartupStep.addBeforeunloadListener]
  ++ (if isDev then [StartupStep.defineDebugMemory] else [])
  ++ (if isDev then
        [StartupStep.consoleLog "🚀 开发环境性能优化工具已启用",
         StartupStep.memoryMonitorStartMonitoring 15000,
         StartupStep.preloadComponentCall "HomeView",
         StartupStep.consoleLog "📊 性能监控工具状态:",
         StartupStep.consoleLog "- 内存泄露检测: 已启动",
         StartupStep.consoleLog "- 内存监控: 已启动",
         StartupStep.consoleLog "- 组件预加载器: 已启动",
         StartupStep.consoleLog "- Bundle分析器: 已启动",
         StartupStep.consoleLog "- 代码分割管理器: 已启动",
         StartupStep.consoleLog "- 事件监听器管理: 已启动"]
      else [])
  ++ [StartupStep.mountApp, StartupStep.readNavigationTiming, StartupStep.installErrorHandler]
  ++ (if isDev then
        [StartupStep.setGlobalPerformanceProperty, StartupStep.definePerfToolsProperty,
         StartupStep.consoleLog "🔧 性能工具已挂载到 window.__PERF_TOOLS__"]
      else [])

/-- The `.catch(console.error)` attached at `src/main.ts:95` to the promise
returned by `componentPreloader.preloadComponent` at HomeView. Given how the
promise settles (`Except.error e` models a rejection with reason `e`), it
returns the list of values passed to `console.error` and whether a rejection
escapes unhandled — the catch handler consumes every rejection, so the
second component is always `false`. -/
def preloadCatch (result : Except String Unit) : List String × Bool :=
  match result with
  | Except.ok _ => ([], false)
  | Except.error e => ([e], false)

/-- The five performance-tool references assembled into the
`performanceTools` object at `src/main.ts:153-159`. -/
inductive PerfTool where
  | memoryMonitor
  | bundleAnalyzer
  | codeSplittingManager
  | componentPreloader
  | eventListenerManager
  deriving DecidableEq

/-- The `performanceTools` object, as the list of tool references it holds,
in declaration order. -/
def performanceTools : List PerfTool :=
  [PerfTool.memoryMonitor, PerfTool.bundleAnalyzer, PerfTool.codeSplittingManager,
   PerfTool.componentPreloader, PerfTool.eventListenerManager]

/-- A JavaScript data-property descriptor: the value of the property and its
`writable` and `configurable` attributes. -/
structure PropertyDescriptor (α : Type) where
  value : α
  writable : Bool
  configurable : Bool

/-- The descriptor passed to `Object.defineProperty` for the key PERF_TOOLS
at `src/main.ts:161-165`: value `performanceTools`, `writable: false`,
`configurable: false`. -/
def perfToolsProperty : PropertyDescriptor (List PerfTool) :=
  ⟨performanceTools, false, false⟩

/-- The dev-guarded installation of `window.__PERF_TOOLS__` (lines 143-168):
the property is defined, once, exactly when the build mode is development. -/
def installPerfTools (isDev : Bool) : Option (PropertyDescriptor (List PerfTool)) :=
  if isDev then some perfToolsProperty else none

/-- JavaScript assignment semantics for an existing data property: a write
updates the value only when the property is writable; on a non-writable
property the write is ignored (sloppy mode) or throws (strict mode), and in
either case the stored value is unchanged. -/
def assignProperty {α : Type} (p : PropertyDescriptor α) (v : α) : PropertyDescriptor α :=
  if p.writable then ⟨v, p.writable, p.configurable⟩ else p

/-- JavaScript `Object.defineProperty` semantics for redefining an existing
non-writable data property: the redefinition succeeds only when the property
is configurable; on a non-configurable property it throws a TypeError and
the descriptor is unchanged. -/
def redefineProperty {α : Type} (p q : PropertyDescriptor α) : PropertyDescriptor α :=
  if p.configurable then q else p

/-- The effects the three `window.debugMemory` operations delegate to. -/
inductive DebugEffect where
  | forceCheck
  | getMemoryStats
  | wsCleanupAll
  | storeCleanupAll
  deriving DecidableEq

/-- The three operations of the `window.debugMemory` namespace. -/
inductive DebugOp where
  | checkMemory
  | getStats
  | cleanupAll
  deriving DecidableEq

/-- The `window.debugMemory` object defined at `src/main.ts:77-84`, as the
trace of collaborator calls each of its three operations makes:
`checkMemory` calls `memoryLeakDetector.forceCheck()`, `getStats` calls
`memoryLeakDetector.getMemoryStats()`, and `cleanupAll` calls
`webSocketCleaner.cleanupAll()` then `StoreCleaner.cleanupAll()`. -/
def debugMemoryOps : DebugOp → List DebugEffect
  | DebugOp.checkMemory => [DebugEffect.forceCheck]
  | DebugOp.getStats => [DebugEffect.getMemoryStats]
  | DebugOp.cleanupAll => [DebugEffect.wsCleanupAll, DebugEffect.storeCleanupAll]

/-- The dev-guarded definition of `window.debugMemory` (lines 75-85): the
namespace exists exactly when the build mode is development. -/
def windowDebugMemory (isDev : Bool) : Option (DebugOp → List DebugEffect) :=
  if isDev then some debugMemoryOps else none

/-- A browser navigation-timing entry, restricted to the eight timestamp
fields `src/main.ts` reads. Timestamps are modelled as rationals; the source
only subtracts them. -/
structure PerformanceNavigationTiming where
  domContentLoadedEventStart : ℚ
  domContentLoadedEventEnd : ℚ
  loadEventStart : ℚ
  loadEventEnd : ℚ
  domainLookupStart : ℚ
  domainLookupEnd : ℚ
  connectStart : ℚ
  connectEnd : ℚ

/-- The four duration metrics logged by the performance report. -/
inductive PerfMetric where
  | domContentLoaded
  | loadComplete
  | dnsLookup
  | tcpConnect
  deriving DecidableEq

/-- The performance measurement at `src/main.ts:111-127`: take the first
entry of the navigation-type performance entries (indexing an empty
list is `undefined`, and the `if (navigationEntry)` guard then skips the
whole block, logging nothing and throwing nothing); when an entry exists,
log the four duration metrics, each an end-minus-start difference of the
fields of the entry. The function is pure: it only reads the entry. -/
def performanceReport (entries : List PerformanceNavigationTiming) :
    List (PerfMetric × ℚ) :=
  match entries.head? with
  | none => []
  | some e =>
    [(PerfMetric.domContentLoaded,
      e.domContentLoadedEventEnd - e.domContentLoadedEventStart),
     (PerfMetric.loadComplete, e.loadEventEnd - e.loadEventStart),
     (PerfMetric.dnsLookup, e.domainLookupEnd - e.domainLookupStart),
     (PerfMetric.tcpConnect, e.connectEnd - e.connectStart)]

/-- Claim C1: on every firing of `beforeunload` the handler invokes the
cleanup steps in the fixed declared order — destroy the network-service
singleton (dynamic import then `destroyInstance`), stop leak monitoring,
clean up all tracked WebSocket resources, clean up all registered stores,
clean up the memory-optimizer singleton (dynamic import then `cleanup`),
and, only in a development build, stop the memory monitor, destroy the
component preloader, clean up event listener tracking, and print a bundle
report. Each awaited dynamically-imported step completes before the next
statement runs (the trace is the sequential composition), and the sequence
is the same regardless of whether the leak detector is currently running.
The first two conjuncts give the full traces of the dev and prod handler
(for any leak-detector state) and the third states that the listed
dev-mode sequence occurs in exactly that order within the dev trace. -/
theorem unload_handler_fixed_order :
    ∀ leakRunning : Bool,
      beforeunloadHandler true (fun _ => false) leakRunning =
        ([Step.logStart, Step.importWS, Step.destroyWSInstance, Step.stopLeakMonitoring,
          Step.wsCleanerCleanupAll, Step.storeCleanerCleanupAll, Step.importMemOpt,
          Step.memOptCleanup, Step.memoryMonitorStop, Step.componentPreloaderDestroy,
          Step.eventListenerCleanup, Step.codeSplittingCleanup, Step.bundlePrintReport], true)
      ∧ beforeunloadHandler false (fun _ => false) leakRunning =
        ([Step.logStart, Step.importWS, Step.destroyWSInstance, Step.stopLeakMonitoring,
          Step.wsCleanerCleanupAll, Step.storeCleanerCleanupAll, Step.importMemOpt,
          Step.memOptCleanup], true)
      ∧ List.Sublist
          [Step.importWS, Step.destroyWSInstance, Step.stopLeakMonitoring,
           Step.wsCleanerCleanupAll, Step.storeCleanerCleanupAll, Step.importMemOpt,
           Step.memOptCleanup, Step.memoryMonitorStop, Step.componentPreloaderDestroy,
           Step.eventListenerCleanup, Step.bundlePrintReport]
          (beforeunloadHandler true (fun _ => false) leakRunning).1 := by
  decide

/-- Claim C2: whatever subset of the four calls inside the two try/catch
blocks (the network-service dynamic import, `destroyInstance`, the
memory-optimizer dynamic import, `getInstance().cleanup()`) throws or
rejects, the failure is caught within its own step — the corresponding
`console.error` appears in the trace exactly when that step failed — the
handler completes without an escaping exception, and every subsequent step
(the three unwrapped cleanup calls, the memory-optimizer try block, and in
dev mode the five dev-only cleanup calls) still executes, in order. -/
theorem unload_wrapped_failures_isolated :
    ∀ isDev leakRunning a b c d : Bool,
      (beforeunloadHandler isDev (wrappedFaults a b c d) leakRunning).2 = true
      ∧ List.Sublist
          ([Step.stopLeakMonitoring, Step.wsCleanerCleanupAll, Step.storeCleanerCleanupAll,
            Step.importMemOpt]
           ++ (if isDev then
                [Step.memoryMonitorStop, Step.componentPreloaderDestroy,
                 Step.eventListenerCleanup, Step.codeSplittingCleanup,
                 Step.bundlePrintReport]
               else []))
          (beforeunloadHandler isDev (wrappedFaults a b c d) leakRunning).1
      ∧ decide (Step.logWSError ∈
          (beforeunloadHandler isDev (wrappedFaults a b c d) leakRunning).1) = (a || b)
      ∧ decide (Step.logMemOptError ∈
          (beforeunloadHandler isDev (wrappedFaults a b c d) leakRunning).1) = (c || d) := by
  decide

/-- Claim C3: the steps of the handler that are not inside a try/catch —
`stopMonitoring`, the `cleanupAll` of the WebSocket cleaner, the `cleanupAll` of the
store cleaner, and the dev-only cleanup calls — have no local error
isolation: when exactly one of them throws, the trace of the handler is cut off
right at the throwing call (the remaining steps never execute) and the
exception escapes the handler (second component `false`). Stated as the
exact resulting trace for each such step, for both build modes where the
step is reachable. -/
theorem unload_unwrapped_failure_aborts :
    ∀ isDev leakRunning : Bool,
      beforeunloadHandler isDev (faultOnly Step.stopLeakMonitoring) leakRunning =
        ([Step.logStart, Step.importWS, Step.destroyWSInstance,
          Step.stopLeakMonitoring], false)
      ∧ beforeunloadHandler isDev (faultOnly Step.wsCleanerCleanupAll) leakRunning =
        ([Step.logStart, Step.importWS, Step.destroyWSInstance, Step.stopLeakMonitoring,
          Step.wsCleanerCleanupAll], false)
      ∧ beforeunloadHandler isDev (faultOnly Step.storeCleanerCleanupAll) leakRunning =
        ([Step.logStart, Step.importWS, Step.destroyWSInstance, Step.stopLeakMonitoring,
          Step.wsCleanerCleanupAll, Step.storeCleanerCleanupAll], false)
      ∧ beforeunloadHandler true (faultOnly Step.memoryMonitorStop) leakRunning =
        ([Step.logStart, Step.importWS, Step.destroyWSInstance, Step.stopLeakMonitoring,
          Step.wsCleanerCleanupAll, Step.storeCleanerCleanupAll, Step.importMemOpt,
          Step.memOptCleanup, Step.memoryMonitorStop], false)
      ∧ beforeunloadHandler true (faultOnly Step.componentPreloaderDestroy) leakRunning =
        ([Step.logStart, Step.importWS, Step.destroyWSInstance, Step.stopLeakMonitoring,
          Step.wsCleanerCleanupAll, Step.storeCleanerCleanupAll, Step.importMemOpt,
          Step.memOptCleanup, Step.memoryMonitorStop, Step.componentPreloaderDestroy], false)
      ∧ beforeunloadHandler true (faultOnly Step.eventListenerCleanup) leakRunning =
        ([Step.logStart, Step.importWS, Step.destroyWSInstance, Step.stopLeakMonitoring,
          Step.wsCleanerCleanupAll, Step.storeCleanerCleanupAll, Step.importMemOpt,
          Step.memOptCleanup, Step.memoryMonitorStop, Step.componentPreloaderDestroy,
          Step.eventListenerCleanup], false)
      ∧ beforeunloadHandler true (faultOnly Step.codeSplittingCleanup) leakRunning =
        ([Step.logStart, Step.importWS, Step.destroyWSInstance, Step.stopLeakMonitoring,
          Step.wsCleanerCleanupAll, Step.storeCleanerCleanupAll, Step.importMemOpt,
          Step.memOptCleanup, Step.memoryMonitorStop, Step.componentPreloaderDestroy,
          Step.eventListenerCleanup, Step.codeSplittingCleanup], false) := by
  decide

/-- Claim C4: in a development build `window.__PERF_TOOLS__` is defined
(exactly once — `installPerfTools` yields a single descriptor) with
`writable: false` and `configurable: false`, so every subsequent assignment
attempt leaves the original tool-references object in place, and so does
every attempt to redefine the property; in production it is not defined. -/
theorem perf_tools_property_immutable :
    installPerfTools true = some perfToolsProperty
    ∧ installPerfTools false = none
    ∧ perfToolsProperty.writable = false
    ∧ perfToolsProperty.configurable = false
    ∧ perfToolsProperty.value = performanceTools
    ∧ (∀ v : List PerfTool, assignProperty perfToolsProperty v = perfToolsProperty)
    ∧ (∀ q : PropertyDescriptor (List PerfTool),
        redefineProperty perfToolsProperty q = perfToolsProperty) := by
  refine ⟨rfl, rfl, rfl, rfl, rfl, ?_, ?_⟩ <;> intro x <;> rfl

/-- Claim C5: in a development build `window.debugMemory` is defined with
exactly the three operations `checkMemory` (delegating to the
`forceCheck` of the leak detector), `getStats` (delegating to `getMemoryStats`) and
`cleanupAll` (invoking the `cleanupAll` of the WebSocket cleaner and then
the `cleanupAll` of the store cleaner); in a production build it is undefined. -/
theorem debug_memory_dev_only :
    windowDebugMemory true = some debugMemoryOps
    ∧ windowDebugMemory false = none
    ∧ debugMemoryOps DebugOp.checkMemory = [DebugEffect.forceCheck]
    ∧ debugMemoryOps DebugOp.getStats = [DebugEffect.getMemoryStats]
    ∧ debugMemoryOps DebugOp.cleanupAll =
        [DebugEffect.wsCleanupAll, DebugEffect.storeCleanupAll] :=
  ⟨rfl, rfl, rfl, rfl, rfl⟩

/-- Claim C6: the performance reporter reads the first navigation-timing
entry; with no entry it logs no metrics and throws no error (the total
function returns the empty report), and with an entry it logs exactly four
duration metrics, each the end-minus-start difference of fields of the entry
— DOM-content-loaded, load-complete, DNS lookup, TCP connect — performing
no mutation (the function only reads the entry). -/
theorem navigation_timing_report :
    performanceReport [] = []
    ∧ (∀ (e : PerformanceNavigationTiming) (rest : List PerformanceNavigationTiming),
        performanceReport (e :: rest) =
          [(PerfMetric.domContentLoaded,
            e.domContentLoadedEventEnd - e.domContentLoadedEventStart),
           (PerfMetric.loadComplete, e.loadEventEnd - e.loadEventStart),
           (PerfMetric.dnsLookup, e.domainLookupEnd - e.domainLookupStart),
           (PerfMetric.tcpConnect, e.connectEnd - e.connectStart)]
        ∧ (performanceReport (e :: rest)).length = 4) :=
  ⟨rfl, fun _ _ => ⟨rfl, rfl⟩⟩

/-- Claim C7: in a production build the module trace contains no call to
`memoryMonitor.startMonitoring` and no call to
`componentPreloader.preloadComponent`, with any argument (filtering the
production startup trace for either kind of step yields nothing). The
dev-guarded branch of the unload handler is likewise disabled in production:
its production trace is stated in `unload_handler_fixed_order`. -/
theorem prod_no_dev_monitoring_calls :
    (moduleInit false).filter
      (fun s => match s with
        | StartupStep.memoryMonitorStartMonitoring _ => true
        | StartupStep.preloadComponentCall _ => true
        | _ => false) = [] := by
  decide

/-- Claim C8: at startup `memoryLeakDetector.startMonitoring` is called
exactly once, with interval 15000 ms in a development build and 30000 ms in
a production build (filtering the startup trace for leak-monitor starts
yields exactly that one call). -/
theorem leak_monitor_interval :
    ∀ isDev : Bool,
      (moduleInit isDev).filter
        (fun s => match s with
          | StartupStep.leakStartMonitoring _ => true
          | _ => false)
      = [StartupStep.leakStartMonitoring (if isDev then 15000 else 30000)] := by
  decide

/-- Claim C9: in a development build the dev-only branch of the unload handler
additionally invokes `codeSplittingManager.cleanup()`, positioned after
`eventListenerManager.cleanup()` and before `bundleAnalyzer.printReport()`
— the full dev trace places it exactly between those two steps. -/
theorem dev_unload_code_splitting_cleanup :
    ∀ leakRunning : Bool,
      (beforeunloadHandler true (fun _ => false) leakRunning).1 =
        [Step.logStart, Step.importWS, Step.destroyWSInstance, Step.stopLeakMonitoring,
         Step.wsCleanerCleanupAll, Step.storeCleanerCleanupAll, Step.importMemOpt,
         Step.memOptCleanup, Step.memoryMonitorStop, Step.componentPreloaderDestroy,
         Step.eventListenerCleanup, Step.codeSplittingCleanup, Step.bundlePrintReport]
      ∧ List.Sublist
          [Step.eventListenerCleanup, Step.codeSplittingCleanup, Step.bundlePrintReport]
          (beforeunloadHandler true (fun _ => false) leakRunning).1 := by
  decide

/-- Claim C10: in a development build the preload of HomeView appears in
the startup trace with the mount, performance report and error-handler
installation still following it — the synchronous module run never awaits
the preload promise, so those steps execute however the promise settles —
and a rejection of that promise is consumed by the attached
`.catch(console.error)`: the reason is logged to the console and no
unhandled rejection escapes. -/
theorem preload_rejection_caught :
    List.Sublist
      [StartupStep.preloadComponentCall "HomeView", StartupStep.mountApp,
       StartupStep.readNavigationTiming, StartupStep.installErrorHandler]
      (moduleInit true)
    ∧ (∀ e : String, preloadCatch (Except.error e) = ([e], false))
    ∧ preloadCatch (Except.ok ()) = ([], false) := by
  exact ⟨by decide, fun _ => rfl, rfl⟩

end SingBoxMain
